import Mathlib

/-!
Shallow embedding of the OpenMRS immunizations form component
(src/widgets/immunizations/immunizations-form.component.tsx).

JavaScript values are modelled as follows: nullable strings become
Option String, plain strings become String, arrays become List, the
cast empty object used as the default dose becomes the distinguished
value emptySequence, and JS truthiness of a string is modelled as the
string being nonempty.  Effects of event handlers (navigation, host
callbacks, the shared error handler) are modelled as explicit effect
records returned by the handler functions.
-/

/-- One dose in a multi-dose vaccination schedule (ImmunizationSequence
in immunization-domain). -/
structure ImmunizationSequence where
  sequenceLabel : String
  sequenceNumber : Int
deriving Repr, DecidableEq

/-- Models the cast empty object used as the default dose in the source,
written there as an empty object cast to ImmunizationSequence. -/
def emptySequence : ImmunizationSequence :=
  { sequenceLabel := "", sequenceNumber := 0 }

/-- The externally facing payload shape (ImmunizationFormData): used both
for the navigation parameters consumed on mount and for the payload
assembled on submission.  Fields that may be absent are Option. -/
structure ImmunizationFormData where
  patientUuid : Option String
  immunizationObsUuid : String
  vaccineName : String
  vaccineUuid : String
  manufacturer : String
  expirationDate : Option String
  vaccinationDate : Option String
  lotNumber : String
  sequences : Option (List ImmunizationSequence)
  currentDose : Option ImmunizationSequence
deriving Repr, DecidableEq

/-- The component state record (ImmunizationFormState, lines 346-357). -/
structure ImmunizationFormState where
  vaccineName : String
  vaccineUuid : String
  immunizationObsUuid : String
  vaccinationDate : Option String
  currentDose : ImmunizationSequence
  sequences : List ImmunizationSequence
  expirationDate : Option String
  lotNumber : String
  manufacturer : String
  formChanged : Bool
deriving Repr, DecidableEq

/-- The initial state of the component (lines 19-30). -/
def initialState : ImmunizationFormState :=
  { vaccineName := ""
    vaccineUuid := ""
    immunizationObsUuid := ""
    vaccinationDate := none
    sequences := []
    currentDose := emptySequence
    expirationDate := none
    lotNumber := ""
    manufacturer := ""
    formChanged := false }

/-- JS truthiness of a string value: true exactly for nonempty strings. -/
def strTruthy (s : String) : Bool :=
  s != ""

/-- JS truthiness of a nullable string field: null is falsy, otherwise
string truthiness. -/
def optStrTruthy : Option String → Bool
  | none => false
  | some s => strTruthy s

/-- Line 49: the component is in view/edit mode when the observation uuid
field is truthy. -/
def isViewEditMode (s : ImmunizationFormState) : Bool :=
  strTruthy s.immunizationObsUuid

/-- Line 50: create buttons are enabled when not in edit mode and the
vaccination date is truthy. -/
def enableCreateButtons (s : ImmunizationFormState) : Bool :=
  !isViewEditMode s && optStrTruthy s.vaccinationDate

/-- Line 51: edit buttons are enabled when in edit mode and the form has
changed. -/
def enableEditButtons (s : ImmunizationFormState) : Bool :=
  isViewEditMode s && s.formChanged

/-- Lines 294-296: the disabled attribute of the submit button. -/
def saveButtonDisabled (s : ImmunizationFormState) : Bool :=
  if isViewEditMode s then !enableEditButtons s else !enableCreateButtons s

/-- Lines 338-340: a sequences value counts only when present and
nonempty. -/
def hasSequences : Option (List ImmunizationSequence) → Bool
  | none => false
  | some l => decide (l.length > 0)

/-- Lines 67-78: the state assembled from the navigation parameters by the
mount effect. -/
def formStateFromParam (p : ImmunizationFormData) : ImmunizationFormState :=
  { immunizationObsUuid := p.immunizationObsUuid
    vaccineName := p.vaccineName
    vaccineUuid := p.vaccineUuid
    manufacturer := p.manufacturer
    lotNumber := p.lotNumber
    expirationDate := p.expirationDate
    vaccinationDate := p.vaccinationDate
    formChanged := false
    sequences := if hasSequences p.sequences then p.sequences.getD [] else []
    currentDose := p.currentDose.getD emptySequence }

/-- Field names of ImmunizationFormState, for the merge-update setter. -/
inductive FormField where
  | vaccineName
  | vaccineUuid
  | immunizationObsUuid
  | vaccinationDate
  | currentDose
  | sequences
  | expirationDate
  | lotNumber
  | manufacturer
  | formChanged
deriving Repr, DecidableEq

/-- A field name together with a new value of the type of that field,
mirroring the typed signature of updateSingle (lines 32-35). -/
inductive FieldUpdate where
  | vaccineName (v : String)
  | vaccineUuid (v : String)
  | immunizationObsUuid (v : String)
  | vaccinationDate (v : Option String)
  | currentDose (v : ImmunizationSequence)
  | sequences (v : List ImmunizationSequence)
  | expirationDate (v : Option String)
  | lotNumber (v : String)
  | manufacturer (v : String)
  | formChanged (v : Bool)
deriving Repr, DecidableEq

/-- The field name carried by a FieldUpdate. -/
def FieldUpdate.name : FieldUpdate → FormField
  | .vaccineName _ => .vaccineName
  | .vaccineUuid _ => .vaccineUuid
  | .immunizationObsUuid _ => .immunizationObsUuid
  | .vaccinationDate _ => .vaccinationDate
  | .currentDose _ => .currentDose
  | .sequences _ => .sequences
  | .expirationDate _ => .expirationDate
  | .lotNumber _ => .lotNumber
  | .manufacturer _ => .manufacturer
  | .formChanged _ => .formChanged

/-- Values a form-state field can hold, as a sum, used to read a field
uniformly by its name. -/
inductive FieldValue where
  | ofStr (v : String)
  | ofOptStr (v : Option String)
  | ofSeq (v : ImmunizationSequence)
  | ofSeqList (v : List ImmunizationSequence)
  | ofBool (v : Bool)
deriving Repr, DecidableEq

/-- The value carried by a FieldUpdate, injected into the sum. -/
def FieldUpdate.value : FieldUpdate → FieldValue
  | .vaccineName v => .ofStr v
  | .vaccineUuid v => .ofStr v
  | .immunizationObsUuid v => .ofStr v
  | .vaccinationDate v => .ofOptStr v
  | .currentDose v => .ofSeq v
  | .sequences v => .ofSeqList v
  | .expirationDate v => .ofOptStr v
  | .lotNumber v => .ofStr v
  | .manufacturer v => .ofStr v
  | .formChanged v => .ofBool v

/-- Reads the field named f from a state, injected into the sum. -/
def readField : FormField → ImmunizationFormState → FieldValue
  | .vaccineName, s => .ofStr s.vaccineName
  | .vaccineUuid, s => .ofStr s.vaccineUuid
  | .immunizationObsUuid, s => .ofStr s.immunizationObsUuid
  | .vaccinationDate, s => .ofOptStr s.vaccinationDate
  | .currentDose, s => .ofSeq s.currentDose
  | .sequences, s => .ofSeqList s.sequences
  | .expirationDate, s => .ofOptStr s.expirationDate
  | .lotNumber, s => .ofStr s.lotNumber
  | .manufacturer, s => .ofStr s.manufacturer
  | .formChanged, s => .ofBool s.formChanged

/-- Lines 32-35: the merge-update setter: spreads the previous state and
replaces the one named field with the new value. -/
def updateSingle (u : FieldUpdate) (s : ImmunizationFormState) :
    ImmunizationFormState :=
  match u with
  | .vaccineName v => { s with vaccineName := v }
  | .vaccineUuid v => { s with vaccineUuid := v }
  | .immunizationObsUuid v => { s with immunizationObsUuid := v }
  | .vaccinationDate v => { s with vaccinationDate := v }
  | .currentDose v => { s with currentDose := v }
  | .sequences v => { s with sequences := v }
  | .expirationDate v => { s with expirationDate := v }
  | .lotNumber v => { s with lotNumber := v }
  | .manufacturer v => { s with manufacturer := v }
  | .formChanged v => { s with formChanged := v }

/-- Decimal value of a digit character, none for a non-digit. -/
def charDigit? (c : Char) : Option Nat :=
  if 48 ≤ c.toNat ∧ c.toNat ≤ 57 then some (c.toNat - 48) else none

/-- Accumulates the decimal value of a digit list, none on a non-digit. -/
def decNatAux : List Char → Nat → Option Nat
  | [], acc => some acc
  | c :: cs, acc =>
    match charDigit? c with
    | some d => decNatAux cs (10 * acc + d)
    | none => none

/-- Parses an optionally minus-signed decimal integer string, none
otherwise.  On the value space of the sequence dropdown, whose options
are the sentinel value DEFAULT (line 177) and the decimal renderings of
the integer sequence numbers (line 184), this agrees with both the JS
Number coercion used by isNaN and with parseInt: both succeed there
exactly on the decimal integer strings and produce the denoted
integer. -/
def parseDecInt (value : String) : Option Int :=
  match value.data with
  | [] => none
  | c :: cs =>
    if c = '-' then
      match cs with
      | [] => none
      | d :: ds =>
        match decNatAux (d :: ds) 0 with
        | some n => some (-(n : Int))
        | none => none
    else
      match decNatAux (c :: cs) 0 with
      | some n => some ((n : Int))
      | none => none

/-- Lines 123-125: isNumber tests that the value does not coerce to NaN,
modelled on the dropdown value space by parseDecInt succeeding. -/
def isNumber (value : String) : Bool :=
  (parseDecInt value).isSome

/-- Lines 127-136: on change of the sequence dropdown, select the first
sequence whose number equals the integer parse of the value, falling
back to the default dose. -/
def onDoseSelect (s : ImmunizationFormState) (value : String) :
    ImmunizationFormState :=
  let defaultDose : ImmunizationSequence := emptySequence
  let currentDose : ImmunizationSequence :=
    (s.sequences.find? fun q =>
      isNumber value &&
        match parseDecInt value with
        | some n => q.sequenceNumber == n
        | none => false).getD defaultDose
  updateSingle (.currentDose currentDose) s

/-- The route pushed by navigate (line 119) and by closeForm. -/
def navigateRoute (patientUuid : String) : String :=
  "/patient/" ++ patientUuid ++ "/chart/immunizations"

/-- Observable effects of a submit or close handler: the route pushed (if
any), whether closeComponent was signalled, whether entryCancelled was
signalled, whether the outcome was forwarded to createErrorHandler, and
whether the confirmation prompt was shown. -/
structure HandlerEffects where
  navigatedTo : Option String
  closed : Bool
  cancelledSignalled : Bool
  errorHandled : Bool
  prompted : Bool
deriving Repr, DecidableEq

/-- The effect record with nothing signalled. -/
def noEffects : HandlerEffects :=
  { navigatedTo := none
    closed := false
    cancelledSignalled := false
    errorHandled := false
    prompted := false }

/-- Lines 118-121: navigate pushes the immunizations route and signals
closeComponent. -/
def navigateEffects (patientUuid : String) : HandlerEffects :=
  { noEffects with
    navigatedTo := some (navigateRoute patientUuid)
    closed := true }

/-- Outcome of the save request: either the promise resolves with a
response carrying a status, or it rejects. -/
inductive SaveOutcome where
  | resolved (status : Nat)
  | rejected
deriving Repr, DecidableEq

/-- Lines 112-114: the two callbacks installed on the save promise.  On
resolution, navigate exactly when the status is 200; on rejection,
forward to createErrorHandler. -/
def onSaveOutcome (patientUuid : String) : SaveOutcome → HandlerEffects
  | .resolved status =>
      if status == 200 then navigateEffects patientUuid else noEffects
  | .rejected => { noEffects with errorHandled := true }

/-- An abort controller: the only observable is whether abort was
called. -/
structure AbortController where
  aborted : Bool
deriving Repr, DecidableEq

/-- A freshly constructed controller (line 100). -/
def newAbortController : AbortController :=
  { aborted := false }

/-- Calling abort on a controller. -/
def AbortController.abortNow (c : AbortController) : AbortController :=
  { c with aborted := true }

/-- What the submit handler (lines 83-116) produces: the assembled
payload, the extra arguments passed to savePatientImmunization, the
continuation installed on the promise, and the function value the
handler returns (which closes over the controller and aborts it). -/
structure SubmitAction where
  payload : ImmunizationFormData
  patientUuidArg : String
  obsUuidArg : String
  continuation : SaveOutcome → HandlerEffects
  cleanup : AbortController → AbortController

/-- Lines 83-116: assemble the payload from the current form state plus
the patient identifier (lines 89-99), start the cancellable save, and
return the abort closure (line 115).  The payload object literal has no
sequences field and no formChanged field. -/
def handleFormSubmit (s : ImmunizationFormState) (patientUuid : String) :
    SubmitAction :=
  { payload :=
      { patientUuid := some patientUuid
        immunizationObsUuid := s.immunizationObsUuid
        vaccineName := s.vaccineName
        vaccineUuid := s.vaccineUuid
        manufacturer := s.manufacturer
        expirationDate := s.expirationDate
        vaccinationDate := s.vaccinationDate
        lotNumber := s.lotNumber
        sequences := none
        currentDose := some s.currentDose }
    patientUuidArg := patientUuid
    obsUuidArg := s.immunizationObsUuid
    continuation := onSaveOutcome patientUuid
    cleanup := AbortController.abortNow }

/-- Lines 53-81: the mount effect.  When navigation parameters are
present it replaces the whole state with formStateFromParam; it returns
no cleanup function (the effect body ends after setFormState, so the
framework receives nothing to run on teardown). -/
def mountEffect (params : Option ImmunizationFormData)
    (s : ImmunizationFormState) :
    ImmunizationFormState × Option (AbortController → AbortController) :=
  match params with
  | some p => (formStateFromParam p, none)
  | none => (s, none)

/-- Teardown of the component: the framework invokes the cleanups
returned by the registered effects; the component registers exactly the
one mount effect, so teardown applies its cleanup (when present) to the
controller of the pending save. -/
def teardownAbort (params : Option ImmunizationFormData)
    (s : ImmunizationFormState) (c : AbortController) : AbortController :=
  match (mountEffect params s).2 with
  | some f => f c
  | none => c

/-- Lines 305-326: the close handler.  It never writes the form state;
it prompts only when the form has changed, and it signals
entryCancelled, pushes the route and signals closeComponent exactly when
the form is unchanged or the user confirmed.  Returns the effects
together with the (unchanged) state. -/
def closeForm (s : ImmunizationFormState) (patientUuid : String)
    (confirmResponse : Bool) : HandlerEffects × ImmunizationFormState :=
  let userConfirmed : Bool := if s.formChanged then confirmResponse else false
  let closeEffects : HandlerEffects :=
    { navigatedTo := some (navigateRoute patientUuid)
      closed := true
      cancelledSignalled := true
      errorHandled := false
      prompted := s.formChanged }
  if userConfirmed && s.formChanged then
    (closeEffects, s)
  else if !s.formChanged then
    (closeEffects, s)
  else
    ({ noEffects with prompted := s.formChanged }, s)

/-! Concrete example values used by witnesses and counterexamples. -/

/-- A concrete patient identifier. -/
def patientA : String := "patient-1"

/-- A concrete first dose. -/
def doseOne : ImmunizationSequence :=
  { sequenceLabel := "Dose 1", sequenceNumber := 1 }

/-- A concrete booster dose. -/
def doseTwo : ImmunizationSequence :=
  { sequenceLabel := "Booster", sequenceNumber := 2 }

/-- A concrete state with two available sequences. -/
def exampleState : ImmunizationFormState :=
  { initialState with sequences := [doseOne, doseTwo] }

/-- Concrete navigation parameters with a populated sequence list and a
selected dose. -/
def exampleParams : ImmunizationFormData :=
  { patientUuid := none
    immunizationObsUuid := "obs-7"
    vaccineName := "Polio"
    vaccineUuid := "vac-1"
    manufacturer := "Acme"
    expirationDate := some "2021-09-01"
    vaccinationDate := some "2020-06-15"
    lotNumber := "L-42"
    sequences := some [doseOne, doseTwo]
    currentDose := some doseTwo }

/-- Concrete navigation parameters carrying no sequences and no selected
dose. -/
def bareParams : ImmunizationFormData :=
  { patientUuid := none
    immunizationObsUuid := ""
    vaccineName := "Measles"
    vaccineUuid := "vac-2"
    manufacturer := ""
    expirationDate := none
    vaccinationDate := none
    lotNumber := ""
    sequences := none
    currentDose := none }

/-- A concrete state marked as changed. -/
def changedState : ImmunizationFormState :=
  { initialState with formChanged := true }

/-- Helper: find? returns the unique element of the list satisfying the
predicate. -/
theorem find_first_of_unique {α : Type} (p : α → Bool) (l : List α) (d : α)
    (hmem : d ∈ l) (hp : p d = true)
    (huniq : ∀ q, q ∈ l → p q = true → q = d) :
    l.find? p = some d := by
  induction l with
  | nil => cases hmem
  | cons a t ih =>
    by_cases ha : p a = true
    · have had : a = d := huniq a (List.mem_cons_self a t) ha
      subst had
      simp [List.find?_cons_of_pos _ ha]
    · rw [List.find?_cons_of_neg _ (by simpa using ha)]
      rcases List.mem_cons.mp hmem with h1 | h2
      · exact absurd (h1 ▸ hp) ha
      · exact ih h2 fun q hq hpq => huniq q (List.mem_cons_of_mem _ hq) hpq

/-- Claim C5: the component is in edit mode iff the observation uuid is
nonempty, and the create-mode and edit-mode button-enable conditions are
never both true. -/
theorem editMode_iff_obsUuid_and_buttons_exclusive
    (s : ImmunizationFormState) :
    (isViewEditMode s = true ↔ s.immunizationObsUuid ≠ "") ∧
    (enableCreateButtons s && enableEditButtons s) = false := by
  constructor
  · simp [isViewEditMode, strTruthy]
  · cases h : isViewEditMode s <;>
      simp [enableCreateButtons, enableEditButtons, h]

/-- Witness for claim C5 at a concrete state. -/
theorem editMode_iff_obsUuid_and_buttons_exclusive_witness :
    isViewEditMode { initialState with immunizationObsUuid := "obs-7" } =
      true ∧
    (enableCreateButtons initialState && enableEditButtons initialState) =
      false := by
  constructor
  · exact (editMode_iff_obsUuid_and_buttons_exclusive
      { initialState with immunizationObsUuid := "obs-7" }).1.mpr (by decide)
  · exact (editMode_iff_obsUuid_and_buttons_exclusive initialState).2

/-- Claim C4: the submit button is disabled in create mode exactly when
the vaccination date is not set (falsy), and in edit mode exactly when
the form is unchanged. -/
theorem saveButton_disabled_spec (s : ImmunizationFormState) :
    (isViewEditMode s = false →
      (saveButtonDisabled s = true ↔ optStrTruthy s.vaccinationDate = false)) ∧
    (isViewEditMode s = true →
      (saveButtonDisabled s = true ↔ s.formChanged = false)) := by
  constructor <;> intro h <;>
    simp [saveButtonDisabled, enableCreateButtons, enableEditButtons, h]

/-- Witness for claim C4: in create mode the empty form is disabled and
setting a vaccination date enables it; in edit mode an unchanged form is
disabled. -/
theorem saveButton_disabled_spec_witness :
    saveButtonDisabled initialState = true ∧
    saveButtonDisabled { initialState with vaccinationDate := some "2020-06-15" } = false ∧
    saveButtonDisabled { initialState with immunizationObsUuid := "obs-7" } = true := by
  refine ⟨?_, ?_, ?_⟩
  · exact ((saveButton_disabled_spec initialState).1 (by decide)).mpr (by decide)
  · have h := (saveButton_disabled_spec
      { initialState with vaccinationDate := some "2020-06-15" }).1 (by decide)
    cases hd : saveButtonDisabled
        { initialState with vaccinationDate := some "2020-06-15" }
    · rfl
    · exact absurd (h.mp hd) (by decide)
  · exact ((saveButton_disabled_spec
      { initialState with immunizationObsUuid := "obs-7" }).2 (by decide)).mpr rfl

/-- Counterexample to claim C1 as stated: a save that resolves with a
non-200 status is not forwarded to the shared error handler — the
rejection callback is the only path into createErrorHandler, and the
resolution callback simply does nothing for status 500. -/
theorem save_nonSuccess_not_forwarded_counterexample :
    ¬ (∀ o : SaveOutcome, o ≠ SaveOutcome.resolved 200 →
        (onSaveOutcome patientA o).errorHandled = true) := by
  intro h
  have hx := h (SaveOutcome.resolved 500) (by decide)
  simp [onSaveOutcome, noEffects] at hx

/-- Claim C1 (amended): the continuation installed on the save promise
navigates to the immunizations route and signals close exactly on a
resolved status 200; a resolved non-200 status produces no navigation,
no close signal and no error forwarding; only a rejected request is
forwarded to the shared error handler (with no navigation or close). -/
theorem save_outcome_effects (s : ImmunizationFormState)
    (patientUuid : String) (status : Nat) :
    (handleFormSubmit s patientUuid).continuation = onSaveOutcome patientUuid ∧
    ((onSaveOutcome patientUuid (SaveOutcome.resolved 200)).navigatedTo =
        some (navigateRoute patientUuid) ∧
      (onSaveOutcome patientUuid (SaveOutcome.resolved 200)).closed = true ∧
      (onSaveOutcome patientUuid (SaveOutcome.resolved 200)).errorHandled =
        false) ∧
    (status ≠ 200 →
      (onSaveOutcome patientUuid (SaveOutcome.resolved status)).navigatedTo =
          none ∧
        (onSaveOutcome patientUuid (SaveOutcome.resolved status)).closed =
          false ∧
        (onSaveOutcome patientUuid (SaveOutcome.resolved status)).errorHandled =
          false) ∧
    ((onSaveOutcome patientUuid SaveOutcome.rejected).navigatedTo = none ∧
      (onSaveOutcome patientUuid SaveOutcome.rejected).closed = false ∧
      (onSaveOutcome patientUuid SaveOutcome.rejected).errorHandled = true) := by
  refine ⟨rfl, ⟨rfl, rfl, rfl⟩, fun h => ?_, rfl, rfl, rfl⟩
  have hb : (status == 200) = false := by simpa using h
  simp [onSaveOutcome, hb, noEffects]

/-- Witness for claim C1 (amended) at a concrete non-200 status. -/
theorem save_outcome_effects_witness :
    (onSaveOutcome patientA (SaveOutcome.resolved 500)).navigatedTo = none ∧
    (onSaveOutcome patientA (SaveOutcome.resolved 500)).closed = false ∧
    (onSaveOutcome patientA (SaveOutcome.resolved 500)).errorHandled = false := by
  exact (save_outcome_effects initialState patientA 500).2.2.1 (by decide)

/-- Claim C3: closing an unchanged form signals entryCancelled, navigates
to the immunization list and signals closeComponent without prompting;
closing a changed form prompts, and when the user declines nothing is
signalled, no navigation happens and the state is unchanged; when the
user confirms the same navigate-and-signal path runs. -/
theorem closeForm_spec (s : ImmunizationFormState) (patientUuid : String)
    (confirmResponse : Bool) :
    (s.formChanged = false →
      closeForm s patientUuid confirmResponse =
        ({ navigatedTo := some (navigateRoute patientUuid)
           closed := true
           cancelledSignalled := true
           errorHandled := false
           prompted := false }, s)) ∧
    (s.formChanged = true →
      (closeForm s patientUuid confirmResponse).1.prompted = true) ∧
    (s.formChanged = true → confirmResponse = false →
      closeForm s patientUuid confirmResponse =
        ({ noEffects with prompted := true }, s)) ∧
    (s.formChanged = true → confirmResponse = true →
      closeForm s patientUuid confirmResponse =
        ({ navigatedTo := some (navigateRoute patientUuid)
           closed := true
           cancelledSignalled := true
           errorHandled := false
           prompted := true }, s)) := by
  refine ⟨fun h => ?_, fun h => ?_, fun h hc => ?_, fun h hc => ?_⟩
  · simp [closeForm, h]
  · cases hc : confirmResponse <;> simp [closeForm, h, hc, noEffects]
  · simp [closeForm, h, hc, noEffects]
  · simp [closeForm, h, hc]

/-- Witness for claim C3: a declined confirmation on a changed form
leaves everything untouched, and an unchanged form closes without a
prompt. -/
theorem closeForm_spec_witness :
    closeForm changedState patientA false =
      ({ noEffects with prompted := true }, changedState) ∧
    closeForm initialState patientA false =
      ({ navigatedTo := some (navigateRoute patientA)
         closed := true
         cancelledSignalled := true
         errorHandled := false
         prompted := false }, initialState) := by
  constructor
  · exact (closeForm_spec changedState patientA false).2.2.1 rfl rfl
  · exact (closeForm_spec initialState patientA false).1 rfl

/-- Claim C2: on dropdown change, a value that does not parse as an
integer yields the empty default dose; a value parsing as n with no
matching sequence yields the empty default dose; a value parsing as n
with a (unique) matching sequence yields that sequence.  No case is
missing, so the handler is total. -/
theorem onDoseSelect_spec (s : ImmunizationFormState) (value : String) :
    (parseDecInt value = none →
      (onDoseSelect s value).currentDose = emptySequence) ∧
    (∀ n : Int, parseDecInt value = some n →
      (∀ q ∈ s.sequences, q.sequenceNumber ≠ n) →
      (onDoseSelect s value).currentDose = emptySequence) ∧
    (∀ n : Int, parseDecInt value = some n →
      ∀ d ∈ s.sequences, d.sequenceNumber = n →
      (∀ q ∈ s.sequences, q.sequenceNumber = n → q = d) →
      (onDoseSelect s value).currentDose = d) := by
  refine ⟨fun h => ?_, fun n h hn => ?_, fun n h d hd hdn huniq => ?_⟩
  · have hfind : (s.sequences.find? fun q =>
        isNumber value &&
          match parseDecInt value with
          | some m => q.sequenceNumber == m
          | none => false) = none := by
      rw [List.find?_eq_none]
      intro q hq
      simp [isNumber, h]
    simp [onDoseSelect, updateSingle, hfind]
  · have hfind : (s.sequences.find? fun q =>
        isNumber value &&
          match parseDecInt value with
          | some m => q.sequenceNumber == m
          | none => false) = none := by
      rw [List.find?_eq_none]
      intro q hq
      simpa [isNumber, h] using hn q hq
    simp [onDoseSelect, updateSingle, hfind]
  · have hfind : (s.sequences.find? fun q =>
        isNumber value &&
          match parseDecInt value with
          | some m => q.sequenceNumber == m
          | none => false) = some d := by
      apply find_first_of_unique _ _ _ hd
      · simp [isNumber, h, hdn]
      · intro q hq hpq
        exact huniq q hq (by simpa [isNumber, h] using hpq)
    simp [onDoseSelect, updateSingle, hfind]

/-- A concrete dropdown value naming sequence number two. -/
def valueTwo : String := "2"

/-- The concrete sentinel dropdown value. -/
def valueDefault : String := "DEFAULT"

/-- Witness for claim C2: selecting the value 2 picks the booster dose
and selecting the sentinel picks the empty default dose. -/
theorem onDoseSelect_spec_witness :
    (onDoseSelect exampleState valueTwo).currentDose = doseTwo ∧
    (onDoseSelect exampleState valueDefault).currentDose = emptySequence := by
  constructor
  · exact (onDoseSelect_spec exampleState valueTwo).2.2 2 (by decide) doseTwo
      (by decide) (by decide) (by decide)
  · exact (onDoseSelect_spec exampleState valueDefault).1 (by decide)

/-- Claim C6: mounting with parameters that carry a populated sequence
list and a selected dose reproduces exactly those values in the state,
and the resulting state is in edit mode iff the observation uuid is
nonempty. -/
theorem formStateFromParam_reproduces (p : ImmunizationFormData)
    (seqs : List ImmunizationSequence) (d : ImmunizationSequence)
    (hs : p.sequences = some seqs) (hne : seqs ≠ [])
    (hd : p.currentDose = some d) :
    formStateFromParam p =
      { vaccineName := p.vaccineName
        vaccineUuid := p.vaccineUuid
        immunizationObsUuid := p.immunizationObsUuid
        vaccinationDate := p.vaccinationDate
        currentDose := d
        sequences := seqs
        expirationDate := p.expirationDate
        lotNumber := p.lotNumber
        manufacturer := p.manufacturer
        formChanged := false } ∧
    (isViewEditMode (formStateFromParam p) = true ↔
      p.immunizationObsUuid ≠ "") := by
  have hlen : 0 < seqs.length := by
    cases seqs with
    | nil => exact absurd rfl hne
    | cons a t => simp
  constructor
  · simp [formStateFromParam, hs, hd, hasSequences, hlen]
  · simp [isViewEditMode, formStateFromParam, strTruthy]

/-- Witness for claim C6 at concrete navigation parameters. -/
theorem formStateFromParam_reproduces_witness :
    formStateFromParam exampleParams =
      { vaccineName := "Polio"
        vaccineUuid := "vac-1"
        immunizationObsUuid := "obs-7"
        vaccinationDate := some "2020-06-15"
        currentDose := doseTwo
        sequences := [doseOne, doseTwo]
        expirationDate := some "2021-09-01"
        lotNumber := "L-42"
        manufacturer := "Acme"
        formChanged := false } ∧
    isViewEditMode (formStateFromParam exampleParams) = true := by
  have h := formStateFromParam_reproduces exampleParams [doseOne, doseTwo]
    doseTwo rfl (by decide) rfl
  exact ⟨h.1, h.2.mpr (by decide)⟩

/-- Claim C9: for arbitrary navigation parameters, the mounted state is
never marked changed, its sequences field is the empty list whenever the
parameters carry no sequences or an empty list (and otherwise is the
carried list), and its current dose is the empty default whenever the
parameters carry none. -/
theorem formStateFromParam_fresh (p : ImmunizationFormData) :
    (formStateFromParam p).formChanged = false ∧
    ((p.sequences = none ∨ p.sequences = some []) →
      (formStateFromParam p).sequences = []) ∧
    (hasSequences p.sequences = true →
      (formStateFromParam p).sequences = p.sequences.getD []) ∧
    (p.currentDose = none →
      (formStateFromParam p).currentDose = emptySequence) := by
  refine ⟨rfl, fun h => ?_, fun h => ?_, fun h => ?_⟩
  · rcases h with h | h <;> simp [formStateFromParam, hasSequences, h]
  · simp [formStateFromParam, h]
  · simp [formStateFromParam, h]

/-- Witness for claim C9 at concrete parameters carrying no sequences
and no dose. -/
theorem formStateFromParam_fresh_witness :
    (formStateFromParam bareParams).formChanged = false ∧
    (formStateFromParam bareParams).sequences = [] ∧
    (formStateFromParam bareParams).currentDose = emptySequence := by
  have h := formStateFromParam_fresh bareParams
  exact ⟨h.1, h.2.1 (Or.inl rfl), h.2.2.2 rfl⟩

/-- Claim C7: the merge-update setter replaces exactly the named field
with the new value and leaves every other field of the previous state
unchanged. -/
theorem updateSingle_frame (u : FieldUpdate) (s : ImmunizationFormState) :
    readField u.name (updateSingle u s) = u.value ∧
    ∀ g : FormField, g ≠ u.name →
      readField g (updateSingle u s) = readField g s := by
  constructor
  · cases u <;> rfl
  · intro g hg
    cases u <;> cases g <;>
      first
        | rfl
        | exact absurd rfl hg

/-- A concrete lot number used by the C7 witness. -/
def lotNinetyNine : String := "L-99"

/-- A concrete single-field update used by the C7 witness. -/
def updateLot : FieldUpdate := FieldUpdate.lotNumber lotNinetyNine

/-- Witness for claim C7: updating the lot number stores the new lot
number and leaves the manufacturer field untouched. -/
theorem updateSingle_frame_witness :
    readField FormField.lotNumber (updateSingle updateLot exampleState) =
      FieldValue.ofStr lotNinetyNine ∧
    readField FormField.manufacturer (updateSingle updateLot exampleState) =
      readField FormField.manufacturer exampleState := by
  exact ⟨(updateSingle_frame updateLot exampleState).1,
    (updateSingle_frame updateLot exampleState).2 FormField.manufacturer
      (by decide)⟩

/-- Claim C10: the payload assembled on submission is exactly the
projection of the current form state onto vaccine name, vaccine uuid,
observation uuid, manufacturer, expiration date, vaccination date, lot
number and current dose, plus the patient identifier; it carries no
sequences, and changing the sequences list or the formChanged flag of
the state never changes the payload. -/
theorem submitPayload_projection (s : ImmunizationFormState)
    (patientUuid : String) :
    (handleFormSubmit s patientUuid).payload.patientUuid =
      some patientUuid ∧
    (handleFormSubmit s patientUuid).payload.immunizationObsUuid =
      s.immunizationObsUuid ∧
    (handleFormSubmit s patientUuid).payload.vaccineName = s.vaccineName ∧
    (handleFormSubmit s patientUuid).payload.vaccineUuid = s.vaccineUuid ∧
    (handleFormSubmit s patientUuid).payload.manufacturer = s.manufacturer ∧
    (handleFormSubmit s patientUuid).payload.expirationDate =
      s.expirationDate ∧
    (handleFormSubmit s patientUuid).payload.vaccinationDate =
      s.vaccinationDate ∧
    (handleFormSubmit s patientUuid).payload.lotNumber = s.lotNumber ∧
    (handleFormSubmit s patientUuid).payload.currentDose =
      some s.currentDose ∧
    (handleFormSubmit s patientUuid).payload.sequences = none ∧
    ∀ (seqs : List ImmunizationSequence) (fc : Bool),
      (handleFormSubmit
        { s with sequences := seqs, formChanged := fc } patientUuid).payload =
      (handleFormSubmit s patientUuid).payload := by
  exact ⟨rfl, rfl, rfl, rfl, rfl, rfl, rfl, rfl, rfl, rfl,
    fun seqs fc => rfl⟩

/-- Claim C8 evaluated at a failing input: the submit handler does
return a closure that aborts the save controller, but the component
registers no teardown cleanup — its only effect, the mount effect,
returns none — so tearing the component down after a submission leaves
the pending controller unaborted. -/
theorem teardown_does_not_abort_pending_save :
    ((handleFormSubmit exampleState patientA).cleanup
      newAbortController).aborted = true ∧
    (mountEffect (some exampleParams) initialState).2 = none ∧
    (teardownAbort (some exampleParams) initialState
      newAbortController).aborted = false := by
  exact ⟨rfl, rfl, rfl⟩
